import Mathlib

/-!
# Drone-detection backend (`src/backend/server.js`)

A shallow embedding of the Express server: the two SQLite tables created by
`ensureDatabaseSetup`, the multer `filename` callback, and the three handlers
`POST /predict`, `GET /reports` and `GET /reports/csv`.

Every handler is a function from the database (and the request, and whatever the
environment supplies: clocks, the `err` argument of a sqlite callback) to the
response together with the database after the request.

Modelling conventions.
* JavaScript strings are `String`; a form field or query parameter that may be
  absent (`undefined`) is an `Option String`. `req.body` is an object whenever the
  handler runs (multer and `express.json()` set it).
* The columns of both tables hold the values the server writes: text columns are
  `String`, `id` is a `Nat`. `timestamp` is the text SQLite's `CURRENT_TIMESTAMP`
  produces, compared as SQLite compares TEXT (code unit by code unit).
* `ORDER BY timestamp DESC` visits the table in rowid order and keeps rows whose
  timestamps are equal in that order.
-/

namespace DroneDetection

/-! ## JSON values and HTTP responses -/

/-- JSON values as sent by `res.json`. A number is `mantissa / 10 ^ scale`, so
that `0.95` is `num 95 2` and `100` is `num 100 0`. -/
inductive Json where
  | null : Json
  | bool (b : Bool) : Json
  | num (mantissa : Int) (scale : Nat) : Json
  | str (s : String) : Json
  | arr (items : List Json) : Json
  | obj (fields : List (String × Json)) : Json

/-- The payload of a response: `res.json(..)` or `res.send(<string>)`. -/
inductive Body where
  | json (j : Json) : Body
  | text (s : String) : Body

/-- An HTTP response: status code, the headers set by `res.setHeader`, payload. -/
structure Response where
  status : Nat
  headers : List (String × String)
  body : Body

/-! ## The store -/

/-- A row of `damage_reports`. -/
structure DamageReport where
  id : Nat
  windmill_number : String
  damage : String
  location : String
  image_path : String
  type : String
  timestamp : String

/-- A row of `solar_panel_reports`. -/
structure SolarPanelReport where
  id : Nat
  panel_id : String
  damage : String
  location : String
  image_path : String
  timestamp : String

/-- A table: its rows in rowid order, and the AUTOINCREMENT counter SQLite keeps
for it (the largest rowid ever handed out). -/
structure Table (α : Type) where
  rows : List α
  seq : Nat

/-- The database `windmill_damage.db`. -/
structure Database where
  damage_reports : Table DamageReport
  solar_panel_reports : Table SolarPanelReport

/-- Columns of `damage_reports`, in the order of the `CREATE TABLE` statement of
`ensureDatabaseSetup`. -/
def damage_reports_columns : List String :=
  ["id", "windmill_number", "damage", "location", "image_path", "type", "timestamp"]

/-- Columns of `solar_panel_reports`, in the order of the `CREATE TABLE`
statement of `ensureDatabaseSetup`. -/
def solar_panel_reports_columns : List String :=
  ["id", "panel_id", "damage", "location", "image_path", "timestamp"]

/-- The rowid `INTEGER PRIMARY KEY AUTOINCREMENT` gives a new row: one more than
the largest rowid the table holds or has ever held. -/
def nextRowid (ids : List Nat) (seq : Nat) : Nat :=
  max seq (ids.foldr max 0) + 1

/-- `INSERT INTO damage_reports (windmill_number, damage, location, image_path,
type) VALUES (?, ?, ?, ?, ?)`: `id` and `timestamp` take their defaults, `now`
being the store clock (`CURRENT_TIMESTAMP`). -/
def insertDamageReport (db : Database) (now : String)
    (windmill_number damage location image_path type : String) : Database :=
  let id := nextRowid (db.damage_reports.rows.map DamageReport.id) db.damage_reports.seq
  { db with damage_reports :=
      { rows := db.damage_reports.rows ++
          [{ id := id, windmill_number := windmill_number, damage := damage,
             location := location, image_path := image_path, type := type,
             timestamp := now }],
        seq := id } }

/-- `INSERT INTO solar_panel_reports (panel_id, damage, location, image_path)
VALUES (?, ?, ?, ?)`. -/
def insertSolarPanelReport (db : Database) (now : String)
    (panel_id damage location image_path : String) : Database :=
  let id := nextRowid (db.solar_panel_reports.rows.map SolarPanelReport.id)
    db.solar_panel_reports.seq
  { db with solar_panel_reports :=
      { rows := db.solar_panel_reports.rows ++
          [{ id := id, panel_id := panel_id, damage := damage, location := location,
             image_path := image_path, timestamp := now }],
        seq := id } }

/-- SQLite's comparison of two TEXT values, `a <= b`: lexicographic on the code
units, a proper prefix being smaller. -/
def textLe : List Char → List Char → Bool
  | [], _ => true
  | _ :: _, [] => false
  | a :: as, b :: bs =>
    if a.toNat < b.toNat then true
    else if a.toNat = b.toNat then textLe as bs
    else false

/-- The relation `ORDER BY timestamp DESC` sorts by: `a` may stand before `b`. -/
def tsDesc (a b : String) : Prop := textLe b.toList a.toList = true

instance tsDesc.decidable (a b : String) : Decidable (tsDesc a b) := by
  unfold tsDesc; infer_instance

/-- `SELECT * FROM solar_panel_reports ORDER BY timestamp DESC`. -/
def selectSolarPanelReports (db : Database) : List SolarPanelReport :=
  List.insertionSort (fun a b => tsDesc a.timestamp b.timestamp) db.solar_panel_reports.rows

/-- `SELECT * FROM damage_reports WHERE type = ? ORDER BY timestamp DESC`. -/
def selectDamageReports (db : Database) (type : String) : List DamageReport :=
  List.insertionSort (fun a b => tsDesc a.timestamp b.timestamp)
    (db.damage_reports.rows.filter (fun r => r.type = type))

/-- A row of `SELECT id, windmill_number as windmillNumber, damage, location,
image_path, timestamp FROM damage_reports ..`. -/
structure WindmillListing where
  id : Nat
  windmillNumber : String
  damage : String
  location : String
  image_path : String
  timestamp : String

/-- The column list of the windmill listing query applied to one row. -/
def DamageReport.listing (r : DamageReport) : WindmillListing :=
  { id := r.id, windmillNumber := r.windmill_number, damage := r.damage,
    location := r.location, image_path := r.image_path, timestamp := r.timestamp }

/-- `SELECT id, windmill_number as windmillNumber, damage, location, image_path,
timestamp FROM damage_reports WHERE type = ? ORDER BY timestamp DESC`. -/
def selectWindmillListing (db : Database) (type : String) : List WindmillListing :=
  (selectDamageReports db type).map DamageReport.listing

/-- The object sqlite3 hands to the callback for a `solar_panel_reports` row. -/
def SolarPanelReport.toJson (r : SolarPanelReport) : Json :=
  .obj [("id", .num r.id 0), ("panel_id", .str r.panel_id), ("damage", .str r.damage),
        ("location", .str r.location), ("image_path", .str r.image_path),
        ("timestamp", .str r.timestamp)]

/-- The object sqlite3 hands to the callback for a windmill listing row. -/
def WindmillListing.toJson (r : WindmillListing) : Json :=
  .obj [("id", .num r.id 0), ("windmillNumber", .str r.windmillNumber),
        ("damage", .str r.damage), ("location", .str r.location),
        ("image_path", .str r.image_path), ("timestamp", .str r.timestamp)]

/-! ## Upload handling -/

/-- The multer `filename` callback: `Date.now() + '-' + file.originalname`, with
`now` the value of `Date.now()` (milliseconds since the epoch). -/
def filename (now : Nat) (originalname : String) : String :=
  toString now ++ "-" ++ originalname

/-- What multer leaves in `req.file`. -/
structure UploadedFile where
  originalname : String
  filename : String
  path : String

/-! ## `POST /predict` -/

/-- The fields of a `/predict` request the handler reads. -/
structure PredictRequest where
  file : Option UploadedFile
  windmillNumber : Option String
  location : Option String
  type : Option String

/-- What the environment supplies while `/predict` runs: `new Date().toISOString()`,
the store clock, and the `err` of the insert callback (`none` when it succeeds). -/
structure PredictEnv where
  isoNow : String
  dbNow : String
  insertErr : Option String

/-- A field as JavaScript's truthiness sees it: `undefined` and `''` are falsy. -/
def truthy (v : Option String) : Option String :=
  match v with
  | none => none
  | some s => if s = "" then none else some s

/-- `res.status(400).json({ error: msg })`. -/
def badRequest (msg : String) : Response :=
  { status := 400, headers := [], body := .json (.obj [("error", .str msg)]) }

/-- The constant `predictions` array of the handler. -/
def predictions : Json :=
  .arr [.obj [("x", .num 100 0), ("y", .num 100 0), ("width", .num 50 0),
              ("height", .num 50 0), ("confidence", .num 95 2), ("class", .str "damage")]]

/-- The callback of both inserts: 500 on `err`, otherwise the result object. -/
def insertCallback (err : Option String) (windmillNumber location damage timestamp : String) :
    Response :=
  match err with
  | some message =>
    { status := 500, headers := [],
      body := .json (.obj [("error", .str "Database error"), ("details", .str message)]) }
  | none =>
    { status := 200, headers := [],
      body := .json (.obj [("windmillNumber", .str windmillNumber),
        ("location", .str location), ("damage", .str damage),
        ("timestamp", .str timestamp), ("predictions", predictions)]) }

/-- The handler of `POST /predict`. The `catch` branch does not appear: with
`req.body` an object nothing inside the `try` block throws. -/
def predict (db : Database) (req : PredictRequest) (env : PredictEnv) : Response × Database :=
  match req.file with
  | none => (badRequest "No image uploaded", db)
  | some file =>
    match truthy req.windmillNumber with
    | none => (badRequest "Windmill number is required", db)
    | some windmillNumber =>
      match truthy req.location with
      | none => (badRequest "Location is required", db)
      | some location =>
        let inspectionType := (truthy req.type).getD "windmill"
        let hasDamage := true
        let damage := if hasDamage then "Yes" else "No"
        let timestamp := env.isoNow
        if inspectionType = "solar" then
          (insertCallback env.insertErr windmillNumber location damage timestamp,
            match env.insertErr with
            | some _ => db
            | none => insertSolarPanelReport db env.dbNow windmillNumber damage location file.path)
        else
          (insertCallback env.insertErr windmillNumber location damage timestamp,
            match env.insertErr with
            | some _ => db
            | none =>
              insertDamageReport db env.dbNow windmillNumber damage location file.path "windmill")

/-! ## `GET /reports` -/

/-- The handler of `GET /reports`; `type` is `req.query.type`, `err` the `err` of
the `db.all` callback. -/
def reports (db : Database) (type : Option String) (err : Option String) : Response × Database :=
  let type := (truthy type).getD "windmill"
  if type = "solar" then
    match err with
    | some _ =>
      ({ status := 500, headers := [],
         body := .json (.obj [("error", .str "Failed to fetch reports")]) }, db)
    | none =>
      ({ status := 200, headers := [],
         body := .json (.arr ((selectSolarPanelReports db).map SolarPanelReport.toJson)) }, db)
  else
    match err with
    | some _ =>
      ({ status := 500, headers := [],
         body := .json (.obj [("error", .str "Failed to fetch reports")]) }, db)
    | none =>
      ({ status := 200, headers := [],
         body := .json (.arr ((selectWindmillListing db "windmill").map WindmillListing.toJson)) },
        db)

/-! ## `GET /reports/csv` -/

/-- The header constant of the solar branch. -/
def solarCsvHeader : String := "id,panel_id,damage,location,image_path,timestamp\n"

/-- The header constant of the windmill branch. -/
def windmillCsvHeader : String := "id,windmill_number,damage,location,image_path,timestamp\n"

/-- The template literal of the solar branch, for one row. -/
def solarCsvLine (r : SolarPanelReport) : String :=
  toString r.id ++ "," ++ r.panel_id ++ "," ++ r.damage ++ ",\"" ++ r.location ++ "\",\"" ++
    r.image_path ++ "\"," ++ r.timestamp

/-- The template literal of the windmill branch, for one row. -/
def windmillCsvLine (r : DamageReport) : String :=
  toString r.id ++ "," ++ r.windmill_number ++ "," ++ r.damage ++ ",\"" ++ r.location ++ "\",\"" ++
    r.image_path ++ "\"," ++ r.timestamp

/-- The payload of the solar branch: `header + rows.map(..).join('\n')`. -/
def solarCsv (rows : List SolarPanelReport) : String :=
  solarCsvHeader ++ "\n".intercalate (rows.map solarCsvLine)

/-- The payload of the windmill branch: `header + rows.map(..).join('\n')`. -/
def windmillCsv (rows : List DamageReport) : String :=
  windmillCsvHeader ++ "\n".intercalate (rows.map windmillCsvLine)

/-- The handler of `GET /reports/csv`. The inner `catch` does not appear: building
the text from rows of strings and numbers does not throw. -/
def reportsCsv (db : Database) (type : Option String) (err : Option String) :
    Response × Database :=
  let type := (truthy type).getD "windmill"
  if type = "solar" then
    match err with
    | some _ => ({ status := 500, headers := [], body := .text "Failed to fetch reports" }, db)
    | none =>
      ({ status := 200,
         headers := [("Content-Type", "text/csv"),
           ("Content-Disposition", "attachment; filename=\"solar_panel_reports.csv\"")],
         body := .text (solarCsv (selectSolarPanelReports db)) }, db)
  else
    match err with
    | some _ => ({ status := 500, headers := [], body := .text "Failed to fetch reports" }, db)
    | none =>
      ({ status := 200,
         headers := [("Content-Type", "text/csv"),
           ("Content-Disposition", "attachment; filename=\"windmill_damage_reports.csv\"")],
         body := .text (windmillCsv (selectDamageReports db "windmill")) }, db)

/-! ## Notions of the specification -/

/-- A form field is missing when it is absent or empty. -/
def isMissing (v : Option String) : Prop := v = none ∨ v = some ""

/-- A `/predict` submission fails validation when the file, the windmill number or
the location is missing. -/
def failsValidation (req : PredictRequest) : Prop :=
  req.file = none ∨ isMissing req.windmillNumber ∨ isMissing req.location

/-- The response body the example of the specification shows for a successful
`/predict`: the echoed inputs, the verdict and the detection list. -/
def claimedPredictBody (windmillNumber location : String) : Json :=
  .obj [("windmillNumber", .str windmillNumber), ("location", .str location),
        ("damage", .str "Yes"),
        ("predictions", .arr [.obj [("x", .num 100 0), ("y", .num 100 0),
          ("width", .num 50 0), ("height", .num 50 0), ("confidence", .num 95 2),
          ("class", .str "damage")]])]

/-- Number of members of a response's JSON object (0 for anything else). -/
def Response.memberCount (r : Response) : Nat :=
  match r.body with
  | .json (.obj fields) => fields.length
  | _ => 0

/-- The text a response carries (empty for a JSON response). -/
def Response.payloadText (r : Response) : String :=
  match r.body with
  | .text s => s
  | .json _ => ""

/-- A timestamp strictly earlier than another, in SQLite's TEXT order. -/
def tsBefore (a b : String) : Prop := textLe b.toList a.toList = false

instance tsBefore.decidable (a b : String) : Decidable (tsBefore a b) := by
  unfold tsBefore; infer_instance

/-- The number a sequence of decimal digits stands for, continuing from `acc`. -/
def digitsValue (acc : Nat) (cs : List Char) : Nat :=
  cs.foldl (fun a c => a * 10 + (c.toNat - 48)) acc

/-- A header row as the specification describes it: the column names joined by
commas, ended by a newline. -/
def headerRow (columns : List String) : String := ",".intercalate columns ++ "\n"

/-- A field wrapped in double quotes, its text copied as it is. -/
def quoted (s : String) : String := "\"" ++ s ++ "\""

/-- A record line as the specification describes it: the fields joined by commas. -/
def recordLine (id : Nat) (identifier damage location image_path timestamp : String) : String :=
  ",".intercalate [toString id, identifier, damage, quoted location, quoted image_path, timestamp]

/-- The pieces of a text between its newline characters. -/
def splitAtNewlines : List Char → List (List Char)
  | [] => [[]]
  | c :: cs =>
    if c = '\n' then [] :: splitAtNewlines cs
    else
      match splitAtNewlines cs with
      | [] => [[c]]
      | l :: ls => (c :: l) :: ls

/-- The lines of a text: the pieces between newlines, a newline at the very end
ending the last line rather than opening an empty one. -/
def textLines (s : String) : List (List Char) :=
  if (splitAtNewlines s.data).getLast? = some [] then (splitAtNewlines s.data).dropLast
  else splitAtNewlines s.data

/-- Number of data rows of a CSV response: its lines after the header line. -/
def csvDataRowCount (r : Response) : Nat :=
  match r.body with
  | .text s => (textLines s).tail.length
  | .json _ => 0

/-- Number of elements of the JSON array a response carries. -/
def jsonArrayLength (r : Response) : Nat :=
  match r.body with
  | .json (.arr items) => items.length
  | _ => 0

/-- A text without newline character. -/
def noNewline (s : String) : Prop := ∀ c ∈ s.data, c ≠ '\n'

instance noNewline.decidable (s : String) : Decidable (noNewline s) := by
  unfold noNewline; infer_instance

/-- No text column of the row holds a newline. -/
def SolarPanelReport.noNewline (r : SolarPanelReport) : Prop :=
  DroneDetection.noNewline r.panel_id ∧ DroneDetection.noNewline r.damage ∧
  DroneDetection.noNewline r.location ∧ DroneDetection.noNewline r.image_path ∧
  DroneDetection.noNewline r.timestamp

instance SolarPanelReport.noNewline.decidable (r : SolarPanelReport) :
    Decidable r.noNewline := by
  unfold SolarPanelReport.noNewline; infer_instance

/-- No text column of the row that the export prints holds a newline. -/
def DamageReport.noNewline (r : DamageReport) : Prop :=
  DroneDetection.noNewline r.windmill_number ∧ DroneDetection.noNewline r.damage ∧
  DroneDetection.noNewline r.location ∧ DroneDetection.noNewline r.image_path ∧
  DroneDetection.noNewline r.timestamp

instance DamageReport.noNewline.decidable (r : DamageReport) : Decidable r.noNewline := by
  unfold DamageReport.noNewline; infer_instance

/-! ## Databases and requests used as examples -/

/-- The database right after `ensureDatabaseSetup` on a fresh file. -/
def emptyDb : Database := ⟨⟨[], 0⟩, ⟨[], 0⟩⟩

/-- The upload of the specification's example, as multer stores it. -/
def bladeFile : UploadedFile :=
  ⟨"blade.jpg", "1700000000400-blade.jpg", "uploads/1700000000400-blade.jpg"⟩

/-- A database holding one windmill report, stored at 22:13:20. -/
def oneReportDb : Database :=
  ⟨⟨[⟨1, "WM-1", "Yes", "Field A", "uploads/1700000000000-blade.jpg", "windmill",
      "2023-11-14 22:13:20"⟩], 1⟩, ⟨[], 0⟩⟩

/-- A database holding windmill reports stored out of timestamp order and one solar
report. -/
def mixedDb : Database :=
  ⟨⟨[⟨1, "WM-1", "Yes", "Field A", "uploads/1-a.jpg", "windmill", "2023-11-14 22:13:20"⟩,
     ⟨2, "WM-2", "Yes", "Field B", "uploads/2-b.jpg", "windmill", "2023-11-15 08:00:00"⟩,
     ⟨3, "WM-3", "Yes", "Field C", "uploads/3-c.jpg", "windmill", "2023-11-14 23:00:00"⟩], 3⟩,
   ⟨[⟨1, "S-1", "Yes", "Roof", "uploads/4-d.jpg", "2023-11-14 10:00:00"⟩], 1⟩⟩

/-- A database whose one windmill report has a two-line location. -/
def twoLineDb : Database :=
  ⟨⟨[⟨1, "WM-12", "Yes", "Field A\nRow 3", "uploads/1700000000000-blade.jpg", "windmill",
      "2023-11-14 22:13:20"⟩], 1⟩, ⟨[], 0⟩⟩

/-! ## Validation and the insert of `/predict` -/

theorem truthy_eq_none_iff (v : Option String) : truthy v = none ↔ isMissing v := by
  cases v with
  | none => simp [truthy, isMissing]
  | some s =>
    by_cases h : s = "" <;> simp [truthy, isMissing, h]

theorem truthy_some_of_ne {s : String} (h : s ≠ "") : truthy (some s) = some s := by
  simp [truthy, h]

theorem truthy_type_solar : (truthy (some "solar")).getD "windmill" = "solar" := by decide

theorem truthy_type_none : ¬ (truthy none).getD "windmill" = "solar" := by decide

theorem truthy_type_windmill : ¬ (truthy (some "windmill")).getD "windmill" = "solar" := by
  decide

theorem truthy_type_solar_iff (ty : Option String) :
    (truthy ty).getD "windmill" = "solar" ↔ ty = some "solar" := by
  cases ty with
  | none => simp [truthy]
  | some s =>
    by_cases h : s = ""
    · subst h
      simp [truthy]
    · simp [truthy, h]

theorem predict_valid (db : Database) (file : UploadedFile) (w l : String) (ty : Option String)
    (env : PredictEnv) (hw : w ≠ "") (hl : l ≠ "") :
    predict db ⟨some file, some w, some l, ty⟩ env =
      (insertCallback env.insertErr w l "Yes" env.isoNow,
        match env.insertErr with
        | some _ => db
        | none =>
          if (truthy ty).getD "windmill" = "solar" then
            insertSolarPanelReport db env.dbNow w "Yes" l file.path
          else insertDamageReport db env.dbNow w "Yes" l file.path "windmill") := by
  simp only [predict, truthy_some_of_ne hw, truthy_some_of_ne hl]
  cases env.insertErr <;> split <;> simp

theorem insertCallback_status (err : Option String) (w l d t : String) :
    (insertCallback err w l d t).status = 500 ∨ (insertCallback err w l d t).status = 200 := by
  cases err <;> simp [insertCallback]

theorem predict_of_failsValidation (db : Database) (req : PredictRequest) (env : PredictEnv)
    (h : failsValidation req) :
    (predict db req env).1.status = 400 ∧ (predict db req env).2 = db := by
  unfold predict
  rcases h with h | h | h
  · rw [h]
    exact ⟨rfl, rfl⟩
  · rw [(truthy_eq_none_iff _).2 h]
    cases req.file <;> exact ⟨rfl, rfl⟩
  · rw [(truthy_eq_none_iff _).2 h]
    cases req.file with
    | none => exact ⟨rfl, rfl⟩
    | some f => cases truthy req.windmillNumber <;> exact ⟨rfl, rfl⟩

/-- C1: a valid `/predict` submission whose insert succeeds appends exactly one row
to the table its `type` selects and leaves the other table as it was:
`solar_panel_reports` for `"solar"`, `damage_reports` when `type` is absent or
`"windmill"`. The row carries the submitted windmill number as identifier, the
submitted location, `req.file.path`, and damage `"Yes"`. -/
theorem predict_inserts_one_row (db : Database) (file : UploadedFile) (w l : String)
    (ty : Option String) (isoNow dbNow : String) (hw : w ≠ "") (hl : l ≠ "") :
    (ty = some "solar" →
      (predict db ⟨some file, some w, some l, ty⟩ ⟨isoNow, dbNow, none⟩).2.solar_panel_reports.rows
          = db.solar_panel_reports.rows ++
            [⟨nextRowid (db.solar_panel_reports.rows.map SolarPanelReport.id)
                db.solar_panel_reports.seq, w, "Yes", l, file.path, dbNow⟩] ∧
      (predict db ⟨some file, some w, some l, ty⟩ ⟨isoNow, dbNow, none⟩).2.damage_reports
          = db.damage_reports) ∧
    ((ty = none ∨ ty = some "windmill") →
      (predict db ⟨some file, some w, some l, ty⟩ ⟨isoNow, dbNow, none⟩).2.damage_reports.rows
          = db.damage_reports.rows ++
            [⟨nextRowid (db.damage_reports.rows.map DamageReport.id) db.damage_reports.seq,
              w, "Yes", l, file.path, "windmill", dbNow⟩] ∧
      (predict db ⟨some file, some w, some l, ty⟩ ⟨isoNow, dbNow, none⟩).2.solar_panel_reports
          = db.solar_panel_reports) := by
  rw [predict_valid db file w l ty _ hw hl]
  refine ⟨?_, ?_⟩
  · intro h
    subst h
    simp only [if_pos truthy_type_solar]
    exact ⟨rfl, rfl⟩
  · intro h
    rcases h with h | h
    · subst h
      simp only [if_neg truthy_type_none]
      exact ⟨rfl, rfl⟩
    · subst h
      simp only [if_neg truthy_type_windmill]
      exact ⟨rfl, rfl⟩

/-- C1 at a solar submission to the empty database and at a windmill submission (no
`type`) to a database holding one report. -/
theorem predict_inserts_one_row_witness :
    ((predict emptyDb ⟨some bladeFile, some "S-7", some "Roof", some "solar"⟩
          ⟨"2023-11-14T22:13:20.400Z", "2023-11-14 22:13:20", none⟩).2.solar_panel_reports.rows =
        [⟨1, "S-7", "Yes", "Roof", "uploads/1700000000400-blade.jpg", "2023-11-14 22:13:20"⟩] ∧
      (predict emptyDb ⟨some bladeFile, some "S-7", some "Roof", some "solar"⟩
          ⟨"2023-11-14T22:13:20.400Z", "2023-11-14 22:13:20", none⟩).2.damage_reports =
        emptyDb.damage_reports) ∧
    ((predict oneReportDb ⟨some bladeFile, some "WM-12", some "Field B", none⟩
          ⟨"2023-11-14T22:13:20.400Z", "2023-11-14 22:13:20", none⟩).2.damage_reports.rows =
        [⟨1, "WM-1", "Yes", "Field A", "uploads/1700000000000-blade.jpg", "windmill",
            "2023-11-14 22:13:20"⟩,
          ⟨2, "WM-12", "Yes", "Field B", "uploads/1700000000400-blade.jpg", "windmill",
            "2023-11-14 22:13:20"⟩] ∧
      (predict oneReportDb ⟨some bladeFile, some "WM-12", some "Field B", none⟩
          ⟨"2023-11-14T22:13:20.400Z", "2023-11-14 22:13:20", none⟩).2.solar_panel_reports =
        oneReportDb.solar_panel_reports) :=
  ⟨(predict_inserts_one_row emptyDb bladeFile "S-7" "Roof" (some "solar")
      "2023-11-14T22:13:20.400Z" "2023-11-14 22:13:20" (by decide) (by decide)).1 rfl,
    (predict_inserts_one_row oneReportDb bladeFile "WM-12" "Field B" none
      "2023-11-14T22:13:20.400Z" "2023-11-14 22:13:20" (by decide) (by decide)).2 (Or.inl rfl)⟩

/-- C2: `POST /predict` answers 400 exactly when the file, the windmill number or the
location is missing (a field is missing when absent or empty), and the error message
names the first missing one in the order file, windmill number, location:
`No image uploaded`, `Windmill number is required`, `Location is required`. -/
theorem predict_400_iff (db : Database) (req : PredictRequest) (env : PredictEnv) :
    ((predict db req env).1.status = 400 ↔ failsValidation req) ∧
    (req.file = none →
      (predict db req env).1 =
        { status := 400, headers := [],
          body := .json (.obj [("error", .str "No image uploaded")]) }) ∧
    (req.file ≠ none → isMissing req.windmillNumber →
      (predict db req env).1 =
        { status := 400, headers := [],
          body := .json (.obj [("error", .str "Windmill number is required")]) }) ∧
    (req.file ≠ none → ¬ isMissing req.windmillNumber → isMissing req.location →
      (predict db req env).1 =
        { status := 400, headers := [],
          body := .json (.obj [("error", .str "Location is required")]) }) := by
  obtain ⟨file, wn, loc, ty⟩ := req
  cases file with
  | none => simp [predict, failsValidation, badRequest]
  | some f =>
    rcases hw : truthy wn with _ | w
    · have hw2 := (truthy_eq_none_iff _).1 hw
      simp [predict, failsValidation, badRequest, hw, hw2]
    · have hw2 : ¬ isMissing wn := by
        rw [← truthy_eq_none_iff, hw]; simp
      rcases hl : truthy loc with _ | l
      · have hl2 := (truthy_eq_none_iff _).1 hl
        simp [predict, failsValidation, badRequest, hw, hl, hl2, hw2]
      · have hl2 : ¬ isMissing loc := by
          rw [← truthy_eq_none_iff, hl]; simp
        have hs := insertCallback_status env.insertErr w l "Yes" env.isoNow
        simp only [predict, failsValidation, hw, hl, hw2, hl2]
        split <;> rcases hs with hs | hs <;> simp [hs]

/-- C2 at four submissions: no file, empty windmill number, empty location, and a
complete one. -/
theorem predict_400_iff_witness :
    (predict emptyDb ⟨none, none, some "", none⟩
        ⟨"2023-11-14T22:13:20.400Z", "2023-11-14 22:13:20", none⟩).1 =
      { status := 400, headers := [],
        body := .json (.obj [("error", .str "No image uploaded")]) } ∧
    (predict emptyDb ⟨some bladeFile, some "", none, none⟩
        ⟨"2023-11-14T22:13:20.400Z", "2023-11-14 22:13:20", none⟩).1 =
      { status := 400, headers := [],
        body := .json (.obj [("error", .str "Windmill number is required")]) } ∧
    (predict emptyDb ⟨some bladeFile, some "WM-12", some "", none⟩
        ⟨"2023-11-14T22:13:20.400Z", "2023-11-14 22:13:20", none⟩).1 =
      { status := 400, headers := [],
        body := .json (.obj [("error", .str "Location is required")]) } ∧
    (predict emptyDb ⟨some bladeFile, some "WM-12", some "Field A", none⟩
        ⟨"2023-11-14T22:13:20.400Z", "2023-11-14 22:13:20", none⟩).1.status ≠ 400 :=
  ⟨(predict_400_iff emptyDb ⟨none, none, some "", none⟩ _).2.1 rfl,
    (predict_400_iff emptyDb ⟨some bladeFile, some "", none, none⟩ _).2.2.1
      (by simp) (Or.inr rfl),
    (predict_400_iff emptyDb ⟨some bladeFile, some "WM-12", some "", none⟩ _).2.2.2
      (by simp) (by simp [isMissing]) (Or.inr rfl),
    fun h => by
      have hv := (predict_400_iff emptyDb
        ⟨some bladeFile, some "WM-12", some "Field A", none⟩
        ⟨"2023-11-14T22:13:20.400Z", "2023-11-14 22:13:20", none⟩).1.1 h
      simp [failsValidation, isMissing] at hv⟩

/-- C3: the store is changed by nothing but the insert of a successful `/predict`:
a submission that fails validation (so every submission without location, which is
answered 400), and any `/predict` not answered 200, leaves the database as it was,
and so do `GET /reports` and `GET /reports/csv` for every `type` parameter. -/
theorem store_changed_only_by_insert (db : Database) :
    (∀ req env, failsValidation req → (predict db req env).2 = db) ∧
    (∀ req env, isMissing req.location →
      (predict db req env).1.status = 400 ∧ (predict db req env).2 = db) ∧
    (∀ req env, (predict db req env).1.status ≠ 200 → (predict db req env).2 = db) ∧
    (∀ ty err, (reports db ty err).2 = db) ∧
    (∀ ty err, (reportsCsv db ty err).2 = db) := by
  refine ⟨fun req env h => (predict_of_failsValidation db req env h).2, ?_, ?_, ?_, ?_⟩
  · intro req env h
    exact predict_of_failsValidation db req env (Or.inr (Or.inr h))
  · intro req env h
    by_cases hv : failsValidation req
    · exact (predict_of_failsValidation db req env hv).2
    · obtain ⟨file, wn, loc, ty⟩ := req
      simp only [failsValidation, not_or, ← truthy_eq_none_iff] at hv
      obtain ⟨hf, hw, hl⟩ := hv
      cases file with
      | none => exact absurd rfl hf
      | some f =>
        rcases hw2 : truthy wn with _ | w
        · exact absurd hw2 hw
        rcases hl2 : truthy loc with _ | l
        · exact absurd hl2 hl
        simp only [predict, hw2, hl2] at h ⊢
        cases he : env.insertErr with
        | some e => split <;> rfl
        | none =>
          rw [he] at h
          split at h <;> simp [insertCallback] at h
  · intro ty err
    unfold reports
    cases err <;> simp only [] <;> split <;> rfl
  · intro ty err
    unfold reportsCsv
    cases err <;> simp only [] <;> split <;> rfl

/-- C3 at a submission without location and at a submission whose insert fails. -/
theorem store_changed_only_by_insert_witness :
    ((predict oneReportDb ⟨some bladeFile, some "WM-12", none, some "solar"⟩
        ⟨"2023-11-14T22:13:20.400Z", "2023-11-14 22:13:20", none⟩).1.status = 400 ∧
      (predict oneReportDb ⟨some bladeFile, some "WM-12", none, some "solar"⟩
        ⟨"2023-11-14T22:13:20.400Z", "2023-11-14 22:13:20", none⟩).2 = oneReportDb) ∧
    (predict oneReportDb ⟨some bladeFile, some "WM-12", some "Field B", none⟩
        ⟨"2023-11-14T22:13:20.400Z", "2023-11-14 22:13:20", some "SQLITE_BUSY"⟩).2 =
      oneReportDb :=
  ⟨(store_changed_only_by_insert oneReportDb).2.1 _ _ (Or.inl rfl),
    (store_changed_only_by_insert oneReportDb).2.2.1 _ _ (by decide)⟩

/-- C4 (as the code has it): a valid `/predict` submission whose insert succeeds is
answered 200 with `windmillNumber` and `location` echoed unchanged, `damage: "Yes"`,
a `timestamp` member holding the handler's `new Date().toISOString()`, and the
constant one-element `predictions` list, for every image, type and database. -/
theorem predict_response (db : Database) (file : UploadedFile) (w l : String)
    (ty : Option String) (isoNow dbNow : String) (hw : w ≠ "") (hl : l ≠ "") :
    (predict db ⟨some file, some w, some l, ty⟩ ⟨isoNow, dbNow, none⟩).1 =
      { status := 200, headers := [],
        body := .json (.obj [("windmillNumber", .str w), ("location", .str l),
          ("damage", .str "Yes"), ("timestamp", .str isoNow),
          ("predictions", .arr [.obj [("x", .num 100 0), ("y", .num 100 0),
            ("width", .num 50 0), ("height", .num 50 0), ("confidence", .num 95 2),
            ("class", .str "damage")]])]) } := by
  rw [predict_valid db file w l ty _ hw hl]
  rfl

/-- C4 at the submission of the specification's example. -/
theorem predict_response_witness :
    (predict emptyDb ⟨some bladeFile, some "WM-12", some "Field A", none⟩
        ⟨"2023-11-14T22:13:20.400Z", "2023-11-14 22:13:20", none⟩).1 =
      { status := 200, headers := [],
        body := .json (.obj [("windmillNumber", .str "WM-12"), ("location", .str "Field A"),
          ("damage", .str "Yes"), ("timestamp", .str "2023-11-14T22:13:20.400Z"),
          ("predictions", .arr [.obj [("x", .num 100 0), ("y", .num 100 0),
            ("width", .num 50 0), ("height", .num 50 0), ("confidence", .num 95 2),
            ("class", .str "damage")]])]) } :=
  predict_response emptyDb bladeFile "WM-12" "Field A" none "2023-11-14T22:13:20.400Z"
    "2023-11-14 22:13:20" (by decide) (by decide)

/-- C4, counterexample: for the submission of the specification's example the
response is not the four-member object the specification gives; its body has a fifth member,
`timestamp`. -/
theorem predict_response_not_claimed :
    (predict emptyDb ⟨some bladeFile, some "WM-12", some "Field A", none⟩
        ⟨"2023-11-14T22:13:20.400Z", "2023-11-14 22:13:20", none⟩).1 ≠
      { status := 200, headers := [], body := .json (claimedPredictBody "WM-12" "Field A") } := by
  intro h
  have h2 := congrArg Response.memberCount h
  exact absurd h2 (by decide)

/-! ## Listing -/

theorem textLe_total : ∀ a b : List Char, textLe a b = true ∨ textLe b a = true
  | [], _ => Or.inl (by simp [textLe])
  | _ :: _, [] => Or.inr (by simp [textLe])
  | a :: as, b :: bs => by
    rcases Nat.lt_trichotomy a.toNat b.toNat with h | h | h
    · left; simp [textLe, h]
    · rcases textLe_total as bs with ih | ih
      · left; simp [textLe, h, ih]
      · right; simp [textLe, h, ih]
    · right; simp [textLe, h]

theorem textLe_trans : ∀ a b c : List Char,
    textLe a b = true → textLe b c = true → textLe a c = true
  | [], _, _ => fun _ _ => by simp [textLe]
  | _ :: _, [], _ => fun h _ => by simp [textLe] at h
  | _ :: _, _ :: _, [] => fun _ h => by simp [textLe] at h
  | a :: as, b :: bs, c :: cs => by
    intro h1 h2
    simp only [textLe] at h1 h2 ⊢
    by_cases hab : a.toNat < b.toNat
    · by_cases hbc : b.toNat < c.toNat
      · simp [Nat.lt_trans hab hbc]
      · simp only [hbc, if_false] at h2
        by_cases hbc2 : b.toNat = c.toNat
        · simp [← hbc2, hab]
        · simp [hbc2] at h2
    · simp only [hab, if_false] at h1
      by_cases hab2 : a.toNat = b.toNat
      · simp only [hab2, if_true] at h1
        by_cases hbc : b.toNat < c.toNat
        · simp [hab2, hbc]
        · simp only [hbc, if_false] at h2
          by_cases hbc2 : b.toNat = c.toNat
          · simp only [hbc2, if_true] at h2
            simp [hab2, hbc2, textLe_trans as bs cs h1 h2]
          · simp [hbc2] at h2
      · simp [hab2] at h1

theorem insertionSort_tsDesc_sorted {α : Type} (f : α → String) (l : List α) :
    (List.insertionSort (fun a b => tsDesc (f a) (f b)) l).Pairwise
      (fun a b => tsDesc (f a) (f b)) := by
  haveI : IsTotal α (fun a b => tsDesc (f a) (f b)) :=
    ⟨fun a b => textLe_total (f b).toList (f a).toList⟩
  haveI : IsTrans α (fun a b => tsDesc (f a) (f b)) :=
    ⟨fun a b c hab hbc => textLe_trans (f c).toList (f b).toList (f a).toList hbc hab⟩
  exact List.sorted_insertionSort _ l

theorem char_eq_iff_toNat (a b : Char) : a = b ↔ a.toNat = b.toNat := by
  constructor
  · intro h; rw [h]
  · intro h
    apply Char.ext
    apply UInt32.ext
    exact h

theorem textLe_eq_false_iff : ∀ x y : List Char,
    textLe x y = false ↔ List.Lex (fun a b : Char => a < b) y x
  | [], y => by
    constructor
    · intro h; simp [textLe] at h
    · intro h; cases h
  | _ :: _, [] => by
    constructor
    · intro _; exact List.Lex.nil
    · intro _; simp [textLe]
  | a :: as, b :: bs => by
    have ih := textLe_eq_false_iff as bs
    constructor
    · intro h
      simp only [textLe] at h
      by_cases h1 : a.toNat < b.toNat
      · simp [h1] at h
      · simp only [h1, if_false] at h
        by_cases h2 : a.toNat = b.toNat
        · simp only [h2, if_true] at h
          have hab : a = b := (char_eq_iff_toNat a b).2 h2
          subst hab
          exact List.Lex.cons (ih.1 h)
        · apply List.Lex.rel
          show b.toNat < a.toNat
          omega
    · intro h
      simp only [textLe]
      cases h with
      | cons h' =>
        have := ih.2 h'
        simp [this]
      | rel h' =>
        have h2 : b.toNat < a.toNat := h'
        have h3 : ¬ a.toNat < b.toNat := by omega
        have h4 : ¬ a.toNat = b.toNat := by omega
        simp [h3, h4]

theorem tsDesc_iff_le (a b : String) : tsDesc a b ↔ b ≤ a := by
  rw [← not_lt, String.lt_iff_toList_lt]
  unfold tsDesc
  rw [← Bool.not_eq_false]
  exact not_congr (textLe_eq_false_iff b.toList a.toList)

theorem insertionSort_tsDesc_le {α : Type} (f : α → String) (l : List α) :
    (List.insertionSort (fun a b => tsDesc (f a) (f b)) l).Pairwise
      (fun a b => f b ≤ f a) :=
  (insertionSort_tsDesc_sorted f l).imp (fun h => (tsDesc_iff_le _ _).1 h)


theorem insertionSort_append_latest {α : Type} (f : α → String) (x : α) :
    ∀ l : List α, (∀ r ∈ l, tsBefore (f r) (f x)) →
      List.insertionSort (fun a b => tsDesc (f a) (f b)) (l ++ [x]) =
        x :: List.insertionSort (fun a b => tsDesc (f a) (f b)) l
  | [], _ => rfl
  | a :: l, h => by
    have ha : ¬ tsDesc (f a) (f x) := by
      have hb : textLe (f x).toList (f a).toList = false := h a (List.mem_cons_self a l)
      intro hd
      have hd2 : textLe (f x).toList (f a).toList = true := hd
      rw [hb] at hd2
      cases hd2
    have ih := insertionSort_append_latest f x l
      (fun r hr => h r (List.mem_cons_of_mem a hr))
    show List.orderedInsert _ a (List.insertionSort _ (l ++ [x])) = _
    rw [ih]
    show (if tsDesc (f a) (f x) then _ else _) = _
    rw [if_neg ha]
    rfl

theorem reports_solar (db : Database) :
    reports db (some "solar") none =
      ({ status := 200, headers := [],
         body := .json (.arr ((selectSolarPanelReports db).map SolarPanelReport.toJson)) }, db) := by
  simp only [reports, if_pos truthy_type_solar]

theorem reports_not_solar (db : Database) (ty : Option String)
    (h : ¬ (truthy ty).getD "windmill" = "solar") :
    reports db ty none =
      ({ status := 200, headers := [],
         body := .json (.arr ((selectWindmillListing db "windmill").map WindmillListing.toJson)) },
        db) := by
  simp only [reports, if_neg h]

theorem reports_windmill (db : Database) (ty : Option String)
    (h : ty = none ∨ ty = some "windmill") :
    reports db ty none =
      ({ status := 200, headers := [],
         body := .json (.arr ((selectWindmillListing db "windmill").map WindmillListing.toJson)) },
        db) := by
  rcases h with h | h <;> subst h
  · exact reports_not_solar db _ truthy_type_none
  · exact reports_not_solar db _ truthy_type_windmill

/-- C5: `GET /reports?type=solar` answers 200 with the rows of `solar_panel_reports`
and nothing else, and `GET /reports` with `type=windmill` or no type with the windmill
rows of `damage_reports` (in the columns the query selects) and nothing else. In both
cases the array is a permutation of the selected rows, each rendered with all its
columns, in descending order of timestamp (every element's timestamp is at least
that of every later element, in the order of strings). -/
theorem reports_sorted_perm (db : Database) :
    (∃ rows : List SolarPanelReport,
      (reports db (some "solar") none).1 =
        { status := 200, headers := [],
          body := .json (.arr (rows.map fun r =>
            .obj [("id", .num r.id 0), ("panel_id", .str r.panel_id),
                  ("damage", .str r.damage), ("location", .str r.location),
                  ("image_path", .str r.image_path), ("timestamp", .str r.timestamp)])) } ∧
      rows.Perm db.solar_panel_reports.rows ∧
      rows.Pairwise (fun a b => b.timestamp ≤ a.timestamp)) ∧
    (∀ ty, ty = none ∨ ty = some "windmill" →
      ∃ rows : List DamageReport,
        (reports db ty none).1 =
          { status := 200, headers := [],
            body := .json (.arr (rows.map fun r =>
              .obj [("id", .num r.id 0), ("windmillNumber", .str r.windmill_number),
                    ("damage", .str r.damage), ("location", .str r.location),
                    ("image_path", .str r.image_path),
                    ("timestamp", .str r.timestamp)])) } ∧
        rows.Perm (db.damage_reports.rows.filter (fun r => r.type = "windmill")) ∧
        rows.Pairwise (fun a b => b.timestamp ≤ a.timestamp)) := by
  refine ⟨⟨selectSolarPanelReports db, ?_, List.perm_insertionSort _ _,
    insertionSort_tsDesc_le SolarPanelReport.timestamp _⟩, ?_⟩
  · have e : (reports db (some "solar") none).1 =
        { status := 200, headers := [],
          body := .json (.arr ((selectSolarPanelReports db).map SolarPanelReport.toJson)) } := by
      simp only [reports, if_pos truthy_type_solar]
    rw [e]
    rfl
  · intro ty h
    have hne : ¬ (truthy ty).getD "windmill" = "solar" := by
      rcases h with h | h <;> subst h
      · exact truthy_type_none
      · exact truthy_type_windmill
    have e : (reports db ty none).1 =
        { status := 200, headers := [],
          body := .json (.arr ((selectWindmillListing db "windmill").map
            WindmillListing.toJson)) } := by
      simp only [reports, if_neg hne]
    refine ⟨selectDamageReports db "windmill", ?_, List.perm_insertionSort _ _,
      insertionSort_tsDesc_le DamageReport.timestamp _⟩
    rw [e]
    simp only [selectWindmillListing, List.map_map]
    rfl

/-- C5 at a database whose windmill reports were stored out of timestamp order: the
listing has the three windmill reports, latest first, and not the solar report. -/
theorem reports_sorted_perm_witness :
    (∃ rows : List DamageReport,
      (reports mixedDb none none).1 =
        { status := 200, headers := [],
          body := .json (.arr (rows.map fun r =>
            .obj [("id", .num r.id 0), ("windmillNumber", .str r.windmill_number),
                  ("damage", .str r.damage), ("location", .str r.location),
                  ("image_path", .str r.image_path),
                  ("timestamp", .str r.timestamp)])) } ∧
      rows.Perm (mixedDb.damage_reports.rows.filter (fun r => r.type = "windmill")) ∧
      rows.Pairwise (fun a b => b.timestamp ≤ a.timestamp)) ∧
    (reports mixedDb none none).1 =
      { status := 200, headers := [],
        body := .json (.arr [
          .obj [("id", .num 2 0), ("windmillNumber", .str "WM-2"), ("damage", .str "Yes"),
                ("location", .str "Field B"), ("image_path", .str "uploads/2-b.jpg"),
                ("timestamp", .str "2023-11-15 08:00:00")],
          .obj [("id", .num 3 0), ("windmillNumber", .str "WM-3"), ("damage", .str "Yes"),
                ("location", .str "Field C"), ("image_path", .str "uploads/3-c.jpg"),
                ("timestamp", .str "2023-11-14 23:00:00")],
          .obj [("id", .num 1 0), ("windmillNumber", .str "WM-1"), ("damage", .str "Yes"),
                ("location", .str "Field A"), ("image_path", .str "uploads/1-a.jpg"),
                ("timestamp", .str "2023-11-14 22:13:20")]]) } :=
  ⟨(reports_sorted_perm mixedDb).2 none (Or.inl rfl), rfl⟩

theorem selectSolar_after_insert (db : Database) (now p d l i : String)
    (h : ∀ r ∈ db.solar_panel_reports.rows, tsBefore r.timestamp now) :
    selectSolarPanelReports (insertSolarPanelReport db now p d l i) =
      ⟨nextRowid (db.solar_panel_reports.rows.map SolarPanelReport.id)
        db.solar_panel_reports.seq, p, d, l, i, now⟩ :: selectSolarPanelReports db := by
  unfold selectSolarPanelReports insertSolarPanelReport
  exact insertionSort_append_latest SolarPanelReport.timestamp _ _ h

theorem selectDamage_after_insert (db : Database) (now w d l i : String)
    (h : ∀ r ∈ db.damage_reports.rows, r.type = "windmill" → tsBefore r.timestamp now) :
    selectDamageReports (insertDamageReport db now w d l i "windmill") "windmill" =
      ⟨nextRowid (db.damage_reports.rows.map DamageReport.id) db.damage_reports.seq,
        w, d, l, i, "windmill", now⟩ :: selectDamageReports db "windmill" := by
  unfold selectDamageReports insertDamageReport
  simp only [List.filter_append, List.filter_cons, List.filter_nil, decide_True, if_true]
  refine insertionSort_append_latest DamageReport.timestamp _ _ ?_
  intro r hr
  rw [List.mem_filter] at hr
  exact h r hr.1 (by simpa using hr.2)

/-- C10 (as the code has it): after a valid `/predict` submission whose insert
succeeds, when the timestamp the store gives the new row is strictly later than that
of every row already in the table the submission went to, the next `GET /reports` for
the same type lists the new record first, followed by the previous listing. -/
theorem reports_newest_first (db : Database) (file : UploadedFile) (w l : String)
    (isoNow dbNow : String) (hw : w ≠ "") (hl : l ≠ "") :
    ((∀ r ∈ db.solar_panel_reports.rows, tsBefore r.timestamp dbNow) →
      (reports (predict db ⟨some file, some w, some l, some "solar"⟩
          ⟨isoNow, dbNow, none⟩).2 (some "solar") none).1 =
        { status := 200, headers := [],
          body := .json (.arr (SolarPanelReport.toJson
            ⟨nextRowid (db.solar_panel_reports.rows.map SolarPanelReport.id)
              db.solar_panel_reports.seq, w, "Yes", l, file.path, dbNow⟩ ::
            (selectSolarPanelReports db).map SolarPanelReport.toJson)) }) ∧
    (∀ ty, ty = none ∨ ty = some "windmill" →
      (∀ r ∈ db.damage_reports.rows, r.type = "windmill" → tsBefore r.timestamp dbNow) →
      (reports (predict db ⟨some file, some w, some l, ty⟩
          ⟨isoNow, dbNow, none⟩).2 ty none).1 =
        { status := 200, headers := [],
          body := .json (.arr (WindmillListing.toJson
            ⟨nextRowid (db.damage_reports.rows.map DamageReport.id) db.damage_reports.seq,
              w, "Yes", l, file.path, dbNow⟩ ::
            (selectWindmillListing db "windmill").map WindmillListing.toJson)) }) := by
  refine ⟨?_, ?_⟩
  · intro h
    rw [predict_valid db file w l _ _ hw hl, reports_solar]
    simp only [if_pos truthy_type_solar]
    rw [selectSolar_after_insert db dbNow w "Yes" l file.path h]
    rfl
  · intro ty hty h
    rw [predict_valid db file w l _ _ hw hl, reports_windmill _ ty hty]
    have hne : ¬ (truthy ty).getD "windmill" = "solar" := by
      rcases hty with hty | hty <;> subst hty
      · exact truthy_type_none
      · exact truthy_type_windmill
    simp only [if_neg hne]
    unfold selectWindmillListing
    rw [selectDamage_after_insert db dbNow w "Yes" l file.path h]
    rfl

/-- C10 at a submission stored one second after the only report of the table. -/
theorem reports_newest_first_witness :
    (reports (predict oneReportDb ⟨some bladeFile, some "WM-12", some "Field B", none⟩
        ⟨"2023-11-14T22:13:21.400Z", "2023-11-14 22:13:21", none⟩).2 none none).1 =
      { status := 200, headers := [],
        body := .json (.arr [WindmillListing.toJson
          ⟨2, "WM-12", "Yes", "Field B", "uploads/1700000000400-blade.jpg",
            "2023-11-14 22:13:21"⟩,
          WindmillListing.toJson
          ⟨1, "WM-1", "Yes", "Field A", "uploads/1700000000000-blade.jpg",
            "2023-11-14 22:13:20"⟩]) } :=
  (reports_newest_first oneReportDb bladeFile "WM-12" "Field B" "2023-11-14T22:13:21.400Z"
    "2023-11-14 22:13:21" (by decide) (by decide)).2 none (Or.inl rfl) (by decide)

/-- C10, counterexample: a windmill report is stored, and a second submission is
inserted within the same second of the store clock. The next `GET /reports` lists the
older record first: the record just inserted is not the first element. -/
theorem reports_newest_not_first :
    ¬ ∃ rest, (reports (predict oneReportDb
          ⟨some bladeFile, some "WM-12", some "Field B", none⟩
          ⟨"2023-11-14T22:13:20.400Z", "2023-11-14 22:13:20", none⟩).2 none none).1.body =
      .json (.arr (WindmillListing.toJson
        ⟨2, "WM-12", "Yes", "Field B", "uploads/1700000000400-blade.jpg",
          "2023-11-14 22:13:20"⟩ :: rest)) := by
  rintro ⟨rest, h⟩
  have h2 : (reports (predict oneReportDb
          ⟨some bladeFile, some "WM-12", some "Field B", none⟩
          ⟨"2023-11-14T22:13:20.400Z", "2023-11-14 22:13:20", none⟩).2 none none).1.body =
      .json (.arr [WindmillListing.toJson
        ⟨1, "WM-1", "Yes", "Field A", "uploads/1700000000000-blade.jpg",
          "2023-11-14 22:13:20"⟩, WindmillListing.toJson
        ⟨2, "WM-12", "Yes", "Field B", "uploads/1700000000400-blade.jpg",
          "2023-11-14 22:13:20"⟩]) := rfl
  rw [h2] at h
  simp [WindmillListing.toJson] at h

/-! ## Stored filenames -/

theorem toString_data (n : Nat) : (toString n).data = Nat.toDigits 10 n := rfl

theorem digitChar_ne_newline (d : Nat) (h : d < 10) : Nat.digitChar d ≠ '\n' := by
  interval_cases d <;> decide

theorem toDigitsCore_no_newline : ∀ (fuel n : Nat) (ds : List Char),
    (∀ c ∈ ds, c ≠ '\n') → ∀ c ∈ Nat.toDigitsCore 10 fuel n ds, c ≠ '\n'
  | 0, _, _, h => h
  | fuel + 1, n, ds, h => by
    have hd : ∀ c ∈ Nat.digitChar (n % 10) :: ds, c ≠ '\n' := by
      intro c hc
      rcases List.mem_cons.1 hc with hc | hc
      · rw [hc]; exact digitChar_ne_newline _ (Nat.mod_lt _ (by decide))
      · exact h c hc
    simp only [Nat.toDigitsCore]
    split_ifs
    · exact hd
    · exact toDigitsCore_no_newline fuel (n / 10) _ hd

theorem toString_no_newline (n : Nat) : ∀ c ∈ (toString n).data, c ≠ '\n' := by
  rw [toString_data]
  exact toDigitsCore_no_newline _ _ _ (by simp)

theorem digitChar_value (d : Nat) (h : d < 10) : (Nat.digitChar d).toNat - 48 = d := by
  interval_cases d <;> rfl

theorem digitsValue_toDigitsCore : ∀ (fuel n : Nat) (ds : List Char), n < fuel →
    digitsValue 0 (Nat.toDigitsCore 10 fuel n ds) = digitsValue n ds
  | 0, _, _, h => absurd h (Nat.not_lt_zero _)
  | fuel + 1, n, ds, h => by
    have hd : (Nat.digitChar (n % 10)).toNat - 48 = n % 10 :=
      digitChar_value _ (Nat.mod_lt _ (by decide))
    simp only [Nat.toDigitsCore]
    split_ifs with h0
    · have hn : n % 10 = n := Nat.mod_eq_of_lt (by omega)
      simp only [digitsValue, List.foldl_cons, hd, Nat.zero_mul, Nat.zero_add]
      rw [hn]
    · rw [digitsValue_toDigitsCore fuel (n / 10) _ (by omega)]
      simp only [digitsValue, List.foldl_cons, hd]
      congr 1
      omega

theorem toString_injective (a b : Nat) (h : toString a = toString b) : a = b := by
  have h2 : Nat.toDigits 10 a = Nat.toDigits 10 b := by
    rw [← toString_data, ← toString_data, h]
  have ha := digitsValue_toDigitsCore (a + 1) a [] (Nat.lt_succ_self a)
  have hb := digitsValue_toDigitsCore (b + 1) b [] (Nat.lt_succ_self b)
  unfold Nat.toDigits at h2
  rw [h2, hb] at ha
  exact ha.symm

theorem filename_data (now : Nat) (originalname : String) :
    (filename now originalname).data = (toString now).data ++ '-' :: originalname.data := by
  simp [filename]

/-- C9 (as the code has it): the stored filename is the decimal `Date.now()` of the
upload, a hyphen, and the original name unchanged; two uploads of the same original
name get distinct stored filenames whenever their receipt times differ. -/
theorem filename_distinct (t1 t2 : Nat) (originalname : String) (h : t1 ≠ t2) :
    (filename t1 originalname).data = (toString t1).data ++ '-' :: originalname.data ∧
    (filename t2 originalname).data = (toString t2).data ++ '-' :: originalname.data ∧
    filename t1 originalname ≠ filename t2 originalname := by
  refine ⟨filename_data _ _, filename_data _ _, ?_⟩
  intro heq
  have h2 := congrArg String.data heq
  rw [filename_data, filename_data] at h2
  have h3 := List.append_cancel_right h2
  exact h (toString_injective t1 t2 (String.ext h3))

/-- C9 at two uploads of `blade.jpg` one millisecond apart. -/
theorem filename_distinct_witness :
    filename 1700000000000 "blade.jpg" ≠ filename 1700000000001 "blade.jpg" :=
  (filename_distinct 1700000000000 1700000000001 "blade.jpg" (by decide)).2.2

/-- C9, counterexample: two uploads of `blade.jpg` received in the same millisecond
get the same stored filename, so the second overwrites the first. -/
theorem filename_same_millisecond :
    ¬ (filename 1700000000000 "blade.jpg" ≠ filename 1700000000000 "blade.jpg") :=
  fun h => h rfl

/-! ## CSV export -/

theorem recordLine_eq (id : Nat) (a d l p t : String) :
    toString id ++ "," ++ a ++ "," ++ d ++ ",\"" ++ l ++ "\",\"" ++ p ++ "\"," ++ t =
      recordLine id a d l p t := by
  apply String.ext
  simp [recordLine, quoted, String.intercalate, String.intercalate.go]

theorem reportsCsv_solar (db : Database) :
    reportsCsv db (some "solar") none =
      ({ status := 200,
         headers := [("Content-Type", "text/csv"),
           ("Content-Disposition", "attachment; filename=\"solar_panel_reports.csv\"")],
         body := .text (solarCsv (selectSolarPanelReports db)) }, db) := by
  simp only [reportsCsv, if_pos truthy_type_solar]

theorem reportsCsv_not_solar (db : Database) (ty : Option String)
    (h : ¬ (truthy ty).getD "windmill" = "solar") :
    reportsCsv db ty none =
      ({ status := 200,
         headers := [("Content-Type", "text/csv"),
           ("Content-Disposition", "attachment; filename=\"windmill_damage_reports.csv\"")],
         body := .text (windmillCsv (selectDamageReports db "windmill")) }, db) := by
  simp only [reportsCsv, if_neg h]

/-- C6: for every database and type filter, the payload `GET /reports/csv` sends is
the fixed header line followed by one line per record of the listing, in listing
order, the record lines joined by newlines; a record line is the fields id,
identifier (`panel_id` or `windmill_number`), damage, location, image_path,
timestamp joined by commas, location and image_path wrapped in double quotes, every
text copied as it is. The same holds of the payload built from any list of rows. -/
theorem csv_payload :
    (∀ rows : List SolarPanelReport,
      solarCsv rows = "id,panel_id,damage,location,image_path,timestamp" ++ "\n" ++
        "\n".intercalate (rows.map fun r =>
          recordLine r.id r.panel_id r.damage r.location r.image_path r.timestamp)) ∧
    (∀ rows : List DamageReport,
      windmillCsv rows = "id,windmill_number,damage,location,image_path,timestamp" ++ "\n" ++
        "\n".intercalate (rows.map fun r =>
          recordLine r.id r.windmill_number r.damage r.location r.image_path r.timestamp)) ∧
    (∀ db : Database, ∃ rows : List SolarPanelReport,
      rows.Perm db.solar_panel_reports.rows ∧
      (reports db (some "solar") none).1.body =
        .json (.arr (rows.map fun r =>
          .obj [("id", .num r.id 0), ("panel_id", .str r.panel_id),
                ("damage", .str r.damage), ("location", .str r.location),
                ("image_path", .str r.image_path), ("timestamp", .str r.timestamp)])) ∧
      (reportsCsv db (some "solar") none).1.status = 200 ∧
      (reportsCsv db (some "solar") none).1.body =
        .text ("id,panel_id,damage,location,image_path,timestamp" ++ "\n" ++
          "\n".intercalate (rows.map fun r =>
            recordLine r.id r.panel_id r.damage r.location r.image_path r.timestamp))) ∧
    (∀ (db : Database) (ty : Option String), ty = none ∨ ty = some "windmill" →
      ∃ rows : List DamageReport,
        rows.Perm (db.damage_reports.rows.filter (fun r => r.type = "windmill")) ∧
        (reports db ty none).1.body =
          .json (.arr (rows.map fun r =>
            .obj [("id", .num r.id 0), ("windmillNumber", .str r.windmill_number),
                  ("damage", .str r.damage), ("location", .str r.location),
                  ("image_path", .str r.image_path), ("timestamp", .str r.timestamp)])) ∧
        (reportsCsv db ty none).1.status = 200 ∧
        (reportsCsv db ty none).1.body =
          .text ("id,windmill_number,damage,location,image_path,timestamp" ++ "\n" ++
            "\n".intercalate (rows.map fun r =>
              recordLine r.id r.windmill_number r.damage r.location r.image_path
                r.timestamp))) := by
  have hs : solarCsvLine = fun r =>
      recordLine r.id r.panel_id r.damage r.location r.image_path r.timestamp :=
    funext fun r => recordLine_eq _ _ _ _ _ _
  have hw : windmillCsvLine = fun r =>
      recordLine r.id r.windmill_number r.damage r.location r.image_path r.timestamp :=
    funext fun r => recordLine_eq _ _ _ _ _ _
  have h1 : ∀ rows : List SolarPanelReport,
      solarCsv rows = "id,panel_id,damage,location,image_path,timestamp" ++ "\n" ++
        "\n".intercalate (rows.map fun r =>
          recordLine r.id r.panel_id r.damage r.location r.image_path r.timestamp) := by
    intro rows
    rw [solarCsv, hs]
    rfl
  have h2 : ∀ rows : List DamageReport,
      windmillCsv rows = "id,windmill_number,damage,location,image_path,timestamp" ++ "\n" ++
        "\n".intercalate (rows.map fun r =>
          recordLine r.id r.windmill_number r.damage r.location r.image_path r.timestamp) := by
    intro rows
    rw [windmillCsv, hw]
    rfl
  refine ⟨h1, h2, ?_, ?_⟩
  · intro db
    have e : reportsCsv db (some "solar") none =
        ({ status := 200,
           headers := [("Content-Type", "text/csv"),
             ("Content-Disposition", "attachment; filename=\"solar_panel_reports.csv\"")],
           body := .text (solarCsv (selectSolarPanelReports db)) }, db) := by
      simp only [reportsCsv, if_pos truthy_type_solar]
    have e2 : (reports db (some "solar") none).1.body =
        .json (.arr ((selectSolarPanelReports db).map SolarPanelReport.toJson)) := by
      simp only [reports, if_pos truthy_type_solar]
    refine ⟨selectSolarPanelReports db, List.perm_insertionSort _ _, ?_, ?_, ?_⟩
    · rw [e2]
      rfl
    · rw [e]
    · rw [e]
      exact congrArg Body.text (h1 _)
  · intro db ty hty
    have hne : ¬ (truthy ty).getD "windmill" = "solar" := by
      rcases hty with hty | hty <;> subst hty
      · exact truthy_type_none
      · exact truthy_type_windmill
    have e : reportsCsv db ty none =
        ({ status := 200,
           headers := [("Content-Type", "text/csv"),
             ("Content-Disposition",
               "attachment; filename=\"windmill_damage_reports.csv\"")],
           body := .text (windmillCsv (selectDamageReports db "windmill")) }, db) := by
      simp only [reportsCsv, if_neg hne]
    have e2 : (reports db ty none).1.body =
        .json (.arr ((selectWindmillListing db "windmill").map WindmillListing.toJson)) := by
      simp only [reports, if_neg hne]
    refine ⟨selectDamageReports db "windmill", List.perm_insertionSort _ _, ?_, ?_, ?_⟩
    · rw [e2]
      simp only [selectWindmillListing, List.map_map]
      rfl
    · rw [e]
    · rw [e]
      exact congrArg Body.text (h2 _)

/-- C6 at a database with three windmill reports stored out of timestamp order, and
at the empty database, where the payload is the header line alone. -/
theorem csv_payload_witness :
    (∃ rows : List DamageReport,
      rows.Perm (mixedDb.damage_reports.rows.filter (fun r => r.type = "windmill")) ∧
      (reports mixedDb none none).1.body =
        .json (.arr (rows.map fun r =>
          .obj [("id", .num r.id 0), ("windmillNumber", .str r.windmill_number),
                ("damage", .str r.damage), ("location", .str r.location),
                ("image_path", .str r.image_path), ("timestamp", .str r.timestamp)])) ∧
      (reportsCsv mixedDb none none).1.status = 200 ∧
      (reportsCsv mixedDb none none).1.body =
        .text ("id,windmill_number,damage,location,image_path,timestamp" ++ "\n" ++
          "\n".intercalate (rows.map fun r =>
            recordLine r.id r.windmill_number r.damage r.location r.image_path
              r.timestamp))) ∧
    (reportsCsv mixedDb none none).1.body =
      .text ("id,windmill_number,damage,location,image_path,timestamp\n" ++
        "2,WM-2,Yes,\"Field B\",\"uploads/2-b.jpg\",2023-11-15 08:00:00\n" ++
        "3,WM-3,Yes,\"Field C\",\"uploads/3-c.jpg\",2023-11-14 23:00:00\n" ++
        "1,WM-1,Yes,\"Field A\",\"uploads/1-a.jpg\",2023-11-14 22:13:20") ∧
    (reportsCsv emptyDb (some "solar") none).1.body =
      .text "id,panel_id,damage,location,image_path,timestamp\n" :=
  ⟨csv_payload.2.2.2 mixedDb none (Or.inl rfl),
    congrArg Body.text (by rfl), congrArg Body.text (by decide)⟩


/-- C7 (as the code has it): the header row of the solar export lists the columns of
`solar_panel_reports` in declaration order; the header row of the windmill export
lists the columns of `damage_reports` in declaration order without the `type`
column. -/
theorem csv_header_columns (db : Database) :
    (reportsCsv db (some "solar") none).1.body =
      .text (headerRow solar_panel_reports_columns ++
        "\n".intercalate ((selectSolarPanelReports db).map solarCsvLine)) ∧
    (reportsCsv db (some "windmill") none).1.body =
      .text (headerRow (damage_reports_columns.filter (fun c => c ≠ "type")) ++
        "\n".intercalate ((selectDamageReports db "windmill").map windmillCsvLine)) := by
  rw [reportsCsv_solar, reportsCsv_not_solar db _ truthy_type_windmill]
  have h1 : headerRow solar_panel_reports_columns = solarCsvHeader := by decide
  have h2 : headerRow (damage_reports_columns.filter (fun c => c ≠ "type")) =
      windmillCsvHeader := by decide
  rw [h1, h2]
  exact ⟨rfl, rfl⟩

/-- C7, counterexample: on the empty database the windmill export is its header row
alone, and that is not the column list of `damage_reports`: the table declares a
`type` column the header does not have. -/
theorem windmill_header_not_columns :
    (reportsCsv emptyDb (some "windmill") none).1.body ≠
      .text (headerRow damage_reports_columns) := by
  intro h
  have h2 : (reportsCsv emptyDb (some "windmill") none).1.payloadText =
      headerRow damage_reports_columns :=
    congrArg (fun b => Response.payloadText ⟨200, [], b⟩) h
  exact absurd h2 (by decide)

theorem splitAtNewlines_cons (c : Char) (cs : List Char) (hc : c ≠ '\n') :
    splitAtNewlines (c :: cs) =
      match splitAtNewlines cs with
      | [] => [[c]]
      | l :: ls => (c :: l) :: ls := by
  rw [splitAtNewlines, if_neg hc]

theorem splitAtNewlines_line (l rest : List Char) (h : ∀ c ∈ l, c ≠ '\n') :
    splitAtNewlines (l ++ '\n' :: rest) = l :: splitAtNewlines rest := by
  induction l with
  | nil => simp [splitAtNewlines]
  | cons c l ih =>
    have hc : c ≠ '\n' := h c (List.mem_cons_self c l)
    have ih2 := ih (fun x hx => h x (List.mem_cons_of_mem c hx))
    rw [List.cons_append, splitAtNewlines_cons _ _ hc, ih2]

theorem splitAtNewlines_single (l : List Char) (h : ∀ c ∈ l, c ≠ '\n') :
    splitAtNewlines l = [l] := by
  induction l with
  | nil => rfl
  | cons c l ih =>
    have hc : c ≠ '\n' := h c (List.mem_cons_self c l)
    have ih2 := ih (fun x hx => h x (List.mem_cons_of_mem c hx))
    rw [splitAtNewlines_cons _ _ hc, ih2]

theorem intercalate_go_data (sep : String) : ∀ (as : List String) (acc : String),
    (String.intercalate.go acc sep as).data =
      acc.data ++ (as.map fun a => sep.data ++ a.data).flatten
  | [], acc => by simp [String.intercalate.go]
  | a :: as, acc => by
    simp [String.intercalate.go, intercalate_go_data sep as, List.append_assoc]

theorem splitAtNewlines_joined : ∀ (as : List String) (a : String),
    (∀ s ∈ a :: as, noNewline s) →
    splitAtNewlines (a.data ++ (as.map fun s => "\n".data ++ s.data).flatten) =
      (a :: as).map String.data
  | [], a, h => by
    simpa using splitAtNewlines_single a.data (h a (List.mem_cons_self _ _))
  | b :: as, a, h => by
    have ha := h a (List.mem_cons_self _ _)
    have ih := splitAtNewlines_joined as b (fun s hs => h s (List.mem_cons_of_mem a hs))
    have e : a.data ++ ((b :: as).map fun s => "\n".data ++ s.data).flatten =
        a.data ++ '\n' :: (b.data ++ (as.map fun s => "\n".data ++ s.data).flatten) := by
      simp
    rw [e, splitAtNewlines_line _ _ ha, ih]
    rfl

theorem textLines_csv (header : String) (lines : List String)
    (hh : noNewline header) (hl : ∀ s ∈ lines, noNewline s) (hne : ∀ s ∈ lines, s.data ≠ []) :
    (textLines (header ++ "\n" ++ "\n".intercalate lines)).tail.length = lines.length := by
  cases lines with
  | nil =>
    have e : splitAtNewlines (header ++ "\n" ++ "\n".intercalate []).data = [header.data, []] := by
      have : (header ++ "\n" ++ "\n".intercalate []).data = header.data ++ '\n' :: [] := by
        simp [String.intercalate]
      rw [this, splitAtNewlines_line _ _ hh]
      rfl
    simp only [textLines, e]
    simp
  | cons a as =>
    have e : splitAtNewlines (header ++ "\n" ++ "\n".intercalate (a :: as)).data =
        header.data :: (a :: as).map String.data := by
      have : (header ++ "\n" ++ "\n".intercalate (a :: as)).data =
          header.data ++ '\n' :: (a.data ++ (as.map fun s => "\n".data ++ s.data).flatten) := by
        simp [String.intercalate, intercalate_go_data]
      rw [this, splitAtNewlines_line _ _ hh, splitAtNewlines_joined as a hl]
    have hlast : (header.data :: (a :: as).map String.data).getLast? ≠ some [] := by
      intro h
      rw [List.map_cons, List.getLast?_cons_cons] at h
      have hm := List.mem_of_getLast?_eq_some h
      rw [← List.map_cons, List.mem_map] at hm
      obtain ⟨s, hs, hs2⟩ := hm
      exact hne s hs hs2
    simp only [textLines, e, if_neg hlast]
    simp

theorem noNewline_append {a b : String} (ha : noNewline a) (hb : noNewline b) :
    noNewline (a ++ b) := by
  intro c hc
  rw [String.data_append, List.mem_append] at hc
  rcases hc with hc | hc
  · exact ha c hc
  · exact hb c hc

theorem csvLine_noNewline (id : Nat) (a d l p t : String)
    (ha : noNewline a) (hd : noNewline d) (hl : noNewline l) (hp : noNewline p)
    (ht : noNewline t) :
    noNewline (toString id ++ "," ++ a ++ "," ++ d ++ ",\"" ++ l ++ "\",\"" ++ p ++ "\"," ++ t) := by
  have h1 : noNewline "," := by decide
  have h2 : noNewline ",\"" := by decide
  have h3 : noNewline "\",\"" := by decide
  have h4 : noNewline "\"," := by decide
  exact noNewline_append (noNewline_append (noNewline_append (noNewline_append
    (noNewline_append (noNewline_append (noNewline_append (noNewline_append
    (noNewline_append (noNewline_append (toString_no_newline id) h1) ha) h1) hd) h2) hl) h3)
    hp) h4) ht

theorem csvLine_nonempty (id : Nat) (a d l p t : String) :
    (toString id ++ "," ++ a ++ "," ++ d ++ ",\"" ++ l ++ "\",\"" ++ p ++ "\"," ++ t).data ≠ [] := by
  simp

/-- C8 (as the code has it): for every type filter, when no text column of a listed
row holds a newline character, the number of lines of the CSV payload after the
header line equals the number of elements of the JSON array `GET /reports` returns
for the same filter. -/
theorem csv_row_count (db : Database) :
    ((∀ r ∈ db.solar_panel_reports.rows, r.noNewline) →
      csvDataRowCount (reportsCsv db (some "solar") none).1 =
        jsonArrayLength (reports db (some "solar") none).1) ∧
    (∀ ty, ty ≠ some "solar" →
      (∀ r ∈ db.damage_reports.rows, r.type = "windmill" → r.noNewline) →
      csvDataRowCount (reportsCsv db ty none).1 = jsonArrayLength (reports db ty none).1) := by
  refine ⟨?_, ?_⟩
  · intro h
    rw [reportsCsv_solar, reports_solar]
    have hsel : ∀ r ∈ selectSolarPanelReports db, r.noNewline := fun r hr =>
      h r ((List.perm_insertionSort _ _).mem_iff.1 hr)
    show (textLines (solarCsv (selectSolarPanelReports db))).tail.length =
      ((selectSolarPanelReports db).map SolarPanelReport.toJson).length
    rw [List.length_map]
    have e : solarCsv (selectSolarPanelReports db) =
        "id,panel_id,damage,location,image_path,timestamp" ++ "\n" ++
          "\n".intercalate ((selectSolarPanelReports db).map solarCsvLine) := rfl
    rw [e, textLines_csv _ _ (by decide), List.length_map]
    · intro s hs
      obtain ⟨r, hr, rfl⟩ := List.mem_map.1 hs
      obtain ⟨h1, h2, h3, h4, h5⟩ := hsel r hr
      exact csvLine_noNewline _ _ _ _ _ _ h1 h2 h3 h4 h5
    · intro s hs
      obtain ⟨r, hr, rfl⟩ := List.mem_map.1 hs
      exact csvLine_nonempty _ _ _ _ _ _
  · intro ty hty h
    have hne : ¬ (truthy ty).getD "windmill" = "solar" := fun hc =>
      hty ((truthy_type_solar_iff ty).1 hc)
    rw [reportsCsv_not_solar db ty hne, reports_not_solar db ty hne]
    have hsel : ∀ r ∈ selectDamageReports db "windmill", r.noNewline := fun r hr => by
      have hm := (List.perm_insertionSort _ _).mem_iff.1 hr
      rw [List.mem_filter] at hm
      exact h r hm.1 (by simpa using hm.2)
    show (textLines (windmillCsv (selectDamageReports db "windmill"))).tail.length =
      ((selectWindmillListing db "windmill").map WindmillListing.toJson).length
    rw [List.length_map, selectWindmillListing, List.length_map]
    have e : windmillCsv (selectDamageReports db "windmill") =
        "id,windmill_number,damage,location,image_path,timestamp" ++ "\n" ++
          "\n".intercalate ((selectDamageReports db "windmill").map windmillCsvLine) := rfl
    rw [e, textLines_csv _ _ (by decide), List.length_map]
    · intro s hs
      obtain ⟨r, hr, rfl⟩ := List.mem_map.1 hs
      obtain ⟨h1, h2, h3, h4, h5⟩ := hsel r hr
      exact csvLine_noNewline _ _ _ _ _ _ h1 h2 h3 h4 h5
    · intro s hs
      obtain ⟨r, hr, rfl⟩ := List.mem_map.1 hs
      exact csvLine_nonempty _ _ _ _ _ _

/-- C8 at a database with three windmill reports and one solar report, none with a
newline in a text column. -/
theorem csv_row_count_witness :
    csvDataRowCount (reportsCsv mixedDb (some "solar") none).1 =
      jsonArrayLength (reports mixedDb (some "solar") none).1 ∧
    csvDataRowCount (reportsCsv mixedDb none none).1 =
      jsonArrayLength (reports mixedDb none none).1 :=
  ⟨(csv_row_count mixedDb).1 (by decide),
    (csv_row_count mixedDb).2 none (by simp) (by decide)⟩

/-- C8, counterexample: one windmill report whose location is a two-line text. The
JSON listing has one element, the CSV payload two lines after the header line. -/
theorem csv_row_count_newline :
    csvDataRowCount (reportsCsv twoLineDb none none).1 ≠
      jsonArrayLength (reports twoLineDb none none).1 := by
  decide

end DroneDetection
